import Mathlib

/-!
Shallow embedding of the MySQL automation scripts
(`backup_script.py`, `deploy_changes_script.py`) and proofs of the
spec's testable properties.

External effects (the MySQL driver, the `mysql`/`mysqldump`
subprocesses, the filesystem) are modelled as explicit inputs:
  * the JSON history document is a `List DeploymentRecord`;
  * a statement's execution outcome is an oracle `fails : String → Bool`
    (`true` = the driver raises `Error`);
  * reading the SQL file is an `Option String` (`none` = the open raises);
  * the subprocess output of `SHOW DATABASES` is an `Option String`
    (`none` = `CalledProcessError`);
  * `mysqldump`'s per-database result is `String → Option String`.
-/

/-- Python `str.split(sep)` for a one-character separator, on the
character list of a string: splits at every occurrence of `sep`,
keeping empty parts (`"a;;b".split(';') = ["a", "", "b"]`). -/
def splitOnChar (sep : Char) : List Char → List (List Char)
  | [] => [[]]
  | c :: rest =>
      match splitOnChar sep rest with
      | [] => [[]]
      | grp :: grps => if c = sep then [] :: grp :: grps else (c :: grp) :: grps

/-- Python `s.split(sep)` for a one-character separator. -/
def py_split (sep : Char) (s : String) : List String :=
  (splitOnChar sep s.data).map (fun l => String.mk l)

/-- Python `s.strip()`: remove leading and trailing whitespace. -/
def pyStrip (s : String) : String :=
  String.mk (((s.data.dropWhile Char.isWhitespace).reverse.dropWhile
      Char.isWhitespace).reverse)

namespace DeployScript

/-- One entry of `deployment_history.json`, as built by
`DatabaseDeployer._record_deployment`. -/
structure DeploymentRecord where
  timestamp : String
  sql_file : String
  status : String
  deriving DecidableEq, Repr

/-- `DatabaseDeployer._record_deployment`: read the whole history,
append one record with status `"success"`, rewrite it in place. -/
def _record_deployment (history : List DeploymentRecord)
    (sql_file ts : String) : List DeploymentRecord :=
  history ++ [{ timestamp := ts, sql_file := sql_file, status := "success" }]

/-- `DatabaseDeployer.get_deployment_history`: read and parse the document. -/
def get_deployment_history (history : List DeploymentRecord) :
    List DeploymentRecord :=
  history

/-- State of `self.connection`: `noConn` is Python `None`, `closedConn` a
connection object with `is_connected()` false, `openConn` one with
`is_connected()` true. -/
inductive ConnState where
  | noConn
  | closedConn
  | openConn
  deriving DecidableEq, Repr

/-- `DatabaseDeployer.disconnect`: `if self.connection and
self.connection.is_connected(): self.connection.close()`. -/
def disconnect : ConnState → ConnState
  | ConnState.openConn => ConnState.closedConn
  | s => s

/-- Whether the deployer holds an open connection. -/
def ConnState.isOpen : ConnState → Bool
  | ConnState.openConn => true
  | _ => false

/-- An observable action issued to the MySQL cursor/connection by
`execute_sql_file`: executing one statement, or committing. -/
inductive DbEvent where
  | execStmt (cmd : String)
  | commit
  deriving DecidableEq, Repr

/-- The statement loop of `DatabaseDeployer.execute_sql_file`:
`for command in sql_commands: if command.strip(): cursor.execute(command);
self.connection.commit()`.  `fails cmd = true` means `cursor.execute(cmd)`
raises `mysql.connector.Error`; the raise happens before the commit and
aborts the loop.  Returns the event trace and whether the loop finished
without error. -/
def run_commands (fails : String → Bool) : List String → List DbEvent × Bool
  | [] => ([], true)
  | cmd :: rest =>
      if pyStrip cmd = "" then run_commands fails rest
      else if fails cmd then ([DbEvent.execStmt cmd], false)
      else (DbEvent.execStmt cmd :: DbEvent.commit :: (run_commands fails rest).1,
            (run_commands fails rest).2)

/-- How a call of `execute_sql_file` terminates: an uncaught exception
propagates out, or the method returns a boolean. -/
inductive ExecOutcome where
  | raised
  | returned (b : Bool)
  deriving DecidableEq, Repr

/-- Result of one `execute_sql_file` call: how it terminated, the history
document afterwards, and the trace of cursor/connection actions. -/
structure ExecResult where
  outcome : ExecOutcome
  history : List DeploymentRecord
  trace : List DbEvent
  deriving DecidableEq, Repr

/-- `DatabaseDeployer.execute_sql_file`.  The environment is explicit:
`conn` is the current `self.connection` state, `connectOk` whether a lazy
`self.connect()` would succeed, `readResult` the content of `sql_file`
(`none` when `open(sql_file)` raises `OSError`, which the
`except Error` clause does not catch), and `fails` the per-statement
driver-error oracle.  On full success the deployment is recorded with
the current timestamp `ts`. -/
def execute_sql_file (conn : ConnState) (connectOk : Bool)
    (readResult : Option String) (fails : String → Bool)
    (sql_file ts : String) (history : List DeploymentRecord) : ExecResult :=
  if conn ≠ ConnState.openConn ∧ connectOk = false then
    { outcome := ExecOutcome.returned false, history := history, trace := [] }
  else
    match readResult with
    | none => { outcome := ExecOutcome.raised, history := history, trace := [] }
    | some content =>
        if (run_commands fails (py_split ';' content)).2 then
          { outcome := ExecOutcome.returned true,
            history := _record_deployment history sql_file ts,
            trace := (run_commands fails (py_split ';' content)).1 }
        else
          { outcome := ExecOutcome.returned false, history := history,
            trace := (run_commands fails (py_split ';' content)).1 }

/-- The statements actually passed to `cursor.execute`, in order. -/
def tracedStmts : List DbEvent → List String
  | [] => []
  | DbEvent.execStmt c :: rest => c :: tracedStmts rest
  | DbEvent.commit :: rest => tracedStmts rest

end DeployScript

namespace BackupScript

/-- The denylist of system schemas hard-coded in
`MySQLBackup.get_databases`. -/
def system_databases : List String :=
  ["information_schema", "performance_schema", "mysql", "sys"]

/-- `MySQLBackup.get_databases`.  `cmdResult` is the outcome of the
`mysql -e 'SHOW DATABASES;'` subprocess: `none` when it raises
`CalledProcessError`, otherwise its stdout.  On success the stdout is
stripped, split on newlines, the header line dropped, and the system
schemas filtered out. -/
def get_databases (cmdResult : Option String) : List String :=
  match cmdResult with
  | none => []
  | some stdout =>
      ((py_split '\n' (pyStrip stdout)).drop 1).filter
        fun db => db ∉ system_databases

/-- A wall-clock instant as read by `datetime.datetime.now()`. -/
structure Timestamp where
  year : Nat
  month : Nat
  day : Nat
  hour : Nat
  minute : Nat
  second : Nat
  deriving DecidableEq, Repr

/-- The ASCII digit character for `d` (`d < 10` in every use). -/
def digitChar (d : Nat) : Char := Char.ofNat (48 + d)

/-- Two-digit zero-padded decimal, as `strftime` renders `%m %d %H %M %S`. -/
def pad2 (n : Nat) : String :=
  String.mk [digitChar (n / 10 % 10), digitChar (n % 10)]

/-- Four-digit zero-padded decimal, as `strftime` renders `%Y` for years
below 10000. -/
def pad4 (n : Nat) : String :=
  String.mk [digitChar (n / 1000 % 10), digitChar (n / 100 % 10),
    digitChar (n / 10 % 10), digitChar (n % 10)]

/-- `datetime.datetime.now().strftime('%Y%m%d_%H%M%S')`. -/
def strftime_YmdHMS (t : Timestamp) : String :=
  pad4 t.year ++ pad2 t.month ++ pad2 t.day ++ "_" ++
    pad2 t.hour ++ pad2 t.minute ++ pad2 t.second

/-- Field bounds implied by any real wall-clock reading (weakened to
what the zero-padded rendering needs). -/
def Timestamp.Valid (t : Timestamp) : Prop :=
  t.year < 10000 ∧ t.month < 100 ∧ t.day < 100 ∧
    t.hour < 100 ∧ t.minute < 100 ∧ t.second < 100

/-- The output path built by `MySQLBackup.create_backup`:
`os.path.join(self.backup_dir, f"{database}_{timestamp}.sql")`. -/
def create_backup_filename (backup_dir database : String) (t : Timestamp) :
    String :=
  backup_dir ++ "/" ++ (database ++ "_" ++ strftime_YmdHMS t ++ ".sql")

/-- `MySQLBackup.create_backup`: `dumpOk` is whether the `mysqldump`
subprocess exits zero; on a non-zero exit the method returns `None`. -/
def create_backup (dumpOk : Bool) (backup_dir database : String)
    (t : Timestamp) : Option String :=
  if dumpOk then some (create_backup_filename backup_dir database t) else none

/-- `MySQLBackup.backup_all_databases`'s loop: one `create_backup` per
database, keeping the successful paths in order.  (`if backup_file:`
coincides with presence here because a produced filename is never
empty.)  `dumpOk` records which dump invocations exit zero and `now`
the wall clock at each invocation. -/
def backup_all_databases (dumpOk : String → Bool) (backup_dir : String)
    (now : String → Timestamp) : List String → List String
  | [] => []
  | db :: rest =>
      match create_backup (dumpOk db) backup_dir db (now db) with
      | some f => f :: backup_all_databases dumpOk backup_dir now rest
      | none => backup_all_databases dumpOk backup_dir now rest

end BackupScript

namespace DeployScript

/-- C1: recording N successful deployments into an initially empty
history and then calling `get_deployment_history` returns exactly the N
corresponding records, in append order. -/
theorem getHistory_roundTrip (deps : List (String × String)) :
    get_deployment_history
        (deps.foldl (fun h p => _record_deployment h p.1 p.2) []) =
      deps.map (fun p =>
        { timestamp := p.2, sql_file := p.1, status := "success" }) := by
  suffices h : ∀ acc : List DeploymentRecord,
      deps.foldl (fun h p => _record_deployment h p.1 p.2) acc =
        acc ++ deps.map (fun p =>
          { timestamp := p.2, sql_file := p.1, status := "success" }) by
    simpa [get_deployment_history] using h []
  induction deps with
  | nil => intro acc; simp
  | cons d rest ih =>
      intro acc
      rw [List.foldl_cons, ih]
      simp [_record_deployment]

/-- C2: appending one successful deployment record grows the history by
exactly one entry, keeps every previously appended entry unchanged and
in place, and the new final entry carries the given `sql_file` and
status `"success"`. -/
theorem record_deployment_appends (history : List DeploymentRecord)
    (sql_file ts : String) :
    (_record_deployment history sql_file ts).length = history.length + 1 ∧
    (_record_deployment history sql_file ts).take history.length = history ∧
    (_record_deployment history sql_file ts).getLast? =
      some { timestamp := ts, sql_file := sql_file, status := "success" } := by
  refine ⟨by simp [_record_deployment], ?_, ?_⟩
  · simp [_record_deployment, List.take_append]
  · simp [_record_deployment]

/-- C9: `disconnect` is total and idempotent: a second call changes
nothing, the result never holds an open connection, and calling it with
no connection ever established leaves the state untouched. -/
theorem disconnect_idempotent (s : ConnState) :
    disconnect (disconnect s) = disconnect s ∧
    (disconnect s).isOpen = false ∧
    disconnect ConnState.noConn = ConnState.noConn := by
  refine ⟨?_, ?_, rfl⟩ <;> cases s <;> rfl

/-- Full characterisation of the statement loop: it succeeds iff no
executed (non-whitespace) statement fails, and its trace is
execute+commit for the successful prefix of the non-whitespace
statements followed by the execution of the first failing one, if any. -/
theorem run_commands_spec (fails : String → Bool) (cands : List String) :
    (run_commands fails cands).2 =
        ((cands.filter fun c => pyStrip c ≠ "").all fun c => !fails c) ∧
    (run_commands fails cands).1 =
      (((cands.filter fun c => pyStrip c ≠ "").takeWhile fun c => !fails c).flatMap
          fun c => [DbEvent.execStmt c, DbEvent.commit]) ++
        (((cands.filter fun c => pyStrip c ≠ "").dropWhile fun c => !fails c).take 1).map
          DbEvent.execStmt := by
  induction cands with
  | nil => exact ⟨rfl, rfl⟩
  | cons cmd rest ih =>
      by_cases hw : pyStrip cmd = ""
      · simpa [run_commands, hw] using ih
      · cases hf : fails cmd with
        | true => simp [run_commands, hw, hf]
        | false => simp [run_commands, hw, hf, ih.1, ih.2]

/-- `tracedStmts` distributes over list append. -/
theorem tracedStmts_append (a b : List DbEvent) :
    tracedStmts (a ++ b) = tracedStmts a ++ tracedStmts b := by
  induction a with
  | nil => rfl
  | cons e rest ih => cases e <;> simp [tracedStmts, ih]

/-- The statements of an execute+commit trace are the statements. -/
theorem tracedStmts_flatMap (l : List String) :
    tracedStmts (l.flatMap fun c => [DbEvent.execStmt c, DbEvent.commit]) = l := by
  induction l with
  | nil => rfl
  | cons c rest ih =>
      rw [show ((c :: rest).flatMap fun s => [DbEvent.execStmt s, DbEvent.commit]) =
          [DbEvent.execStmt c, DbEvent.commit] ++
            (rest.flatMap fun s => [DbEvent.execStmt s, DbEvent.commit]) from rfl,
        tracedStmts_append, ih]
      rfl

/-- The statements of a pure-execute trace are the statements. -/
theorem tracedStmts_map (l : List String) :
    tracedStmts (l.map DbEvent.execStmt) = l := by
  induction l with
  | nil => rfl
  | cons c rest ih => simp [tracedStmts, ih]

/-- The statements of a truncated pure-execute trace. -/
theorem tracedStmts_take_map (n : Nat) (l : List String) :
    tracedStmts ((l.map DbEvent.execStmt).take n) = l.take n := by
  rw [← List.map_take, tracedStmts_map]

/-- C4: on a readable file none of whose non-whitespace statements
fails, `execute_sql_file` splits the content on the literal `';'`,
executes exactly the non-empty, non-whitespace-only candidates in
textual order, and commits after each executed statement. -/
theorem executeScript_splits_and_commits (connectOk : Bool) (content : String)
    (fails : String → Bool) (sql_file ts : String)
    (history : List DeploymentRecord)
    (h : ∀ c ∈ (py_split ';' content).filter fun c => pyStrip c ≠ "",
      fails c = false) :
    (execute_sql_file ConnState.openConn connectOk (some content) fails
        sql_file ts history).trace =
      ((py_split ';' content).filter fun c => pyStrip c ≠ "").flatMap
        fun c => [DbEvent.execStmt c, DbEvent.commit] := by
  have hspec := run_commands_spec fails (py_split ';' content)
  have hall : ∀ c ∈ (py_split ';' content).filter fun c => pyStrip c ≠ "",
      (!fails c) = true := by
    intro c hc; simp [h c hc]
  have htw := List.takeWhile_eq_self_iff.mpr hall
  have hdw := List.dropWhile_eq_nil_iff.mpr hall
  have hok : (run_commands fails (py_split ';' content)).2 = true := by
    rw [hspec.1, List.all_eq_true]; exact hall
  have htrace := hspec.2
  rw [htw, hdw] at htrace
  simp only [List.take_nil, List.map_nil, List.append_nil] at htrace
  simp [execute_sql_file, hok, htrace]

/-- C3: when some non-whitespace statement of the split file fails,
`execute_sql_file` returns `False`, appends nothing to the history
document, and executes no statement after the first failing one: the
executed statements are exactly the non-failing prefix followed by the
first failing statement. -/
theorem executeScript_aborts_on_error (connectOk : Bool) (content : String)
    (fails : String → Bool) (sql_file ts : String)
    (history : List DeploymentRecord)
    (h : ∃ c ∈ (py_split ';' content).filter fun c => pyStrip c ≠ "",
      fails c = true) :
    (execute_sql_file ConnState.openConn connectOk (some content) fails
        sql_file ts history).outcome = ExecOutcome.returned false ∧
    (execute_sql_file ConnState.openConn connectOk (some content) fails
        sql_file ts history).history = history ∧
    tracedStmts (execute_sql_file ConnState.openConn connectOk (some content)
        fails sql_file ts history).trace =
      (((py_split ';' content).filter fun c => pyStrip c ≠ "").takeWhile
          fun c => !fails c) ++
        ((((py_split ';' content).filter fun c => pyStrip c ≠ "").dropWhile
            fun c => !fails c).take 1) := by
  have hspec := run_commands_spec fails (py_split ';' content)
  have hfail : (run_commands fails (py_split ';' content)).2 = false := by
    rw [hspec.1]
    obtain ⟨c, hc, hfc⟩ := h
    cases hb : ((py_split ';' content).filter fun c => pyStrip c ≠ "").all
        fun c => !fails c with
    | false => rfl
    | true =>
        have := List.all_eq_true.mp hb c hc
        rw [hfc] at this
        simp at this
  refine ⟨?_, ?_, ?_⟩
  · simp [execute_sql_file, hfail]
  · simp [execute_sql_file, hfail]
  · simp [execute_sql_file, hfail, hspec.2, tracedStmts_append,
      tracedStmts_flatMap, tracedStmts_take_map]

/-- C10: with an open connection (or one obtainable by the lazy
`connect()`), a failing `open(sql_file)` propagates as an uncaught
exception — the `except Error` clause catches only driver errors — and
the history document is left unchanged. -/
theorem executeScript_propagates_file_error (conn : ConnState)
    (connectOk : Bool) (fails : String → Bool) (sql_file ts : String)
    (history : List DeploymentRecord)
    (h : conn = ConnState.openConn ∨ connectOk = true) :
    (execute_sql_file conn connectOk none fails sql_file ts
        history).outcome = ExecOutcome.raised ∧
    (execute_sql_file conn connectOk none fails sql_file ts
        history).history = history := by
  rcases h with h | h <;> simp [execute_sql_file, h]

/-- Witness for C4 at a concrete file content. -/
theorem executeScript_splits_and_commits_witness :
    (execute_sql_file ConnState.openConn true (some "a; b ;; c")
        (fun _ => false) "f.sql" "t" []).trace =
      [DbEvent.execStmt "a", DbEvent.commit, DbEvent.execStmt " b ",
        DbEvent.commit, DbEvent.execStmt " c", DbEvent.commit] := by
  have h := executeScript_splits_and_commits true "a; b ;; c" (fun _ => false)
    "f.sql" "t" [] (by intro c _; rfl)
  rw [h]; decide

/-- Witness for C3 at a concrete file whose middle statement fails. -/
theorem executeScript_aborts_on_error_witness :
    (execute_sql_file ConnState.openConn true (some "a;boom;c")
        (fun c => c == "boom") "f.sql" "t" []).outcome =
      ExecOutcome.returned false ∧
    (execute_sql_file ConnState.openConn true (some "a;boom;c")
        (fun c => c == "boom") "f.sql" "t" []).history = [] ∧
    tracedStmts (execute_sql_file ConnState.openConn true (some "a;boom;c")
        (fun c => c == "boom") "f.sql" "t" []).trace = ["a", "boom"] := by
  have h := executeScript_aborts_on_error true "a;boom;c"
    (fun c => c == "boom") "f.sql" "t" [] (by decide)
  refine ⟨h.1, h.2.1, ?_⟩
  rw [h.2.2]; decide

/-- Witness for C10 at a concrete state: open connection, unreadable file. -/
theorem executeScript_propagates_file_error_witness :
    (execute_sql_file ConnState.openConn false none (fun _ => false)
        "missing.sql" "t" []).outcome = ExecOutcome.raised ∧
    (execute_sql_file ConnState.openConn false none (fun _ => false)
        "missing.sql" "t" []).history = [] :=
  executeScript_propagates_file_error ConnState.openConn false (fun _ => false)
    "missing.sql" "t" [] (Or.inl rfl)

end DeployScript

namespace BackupScript

/-- C5: when the `SHOW DATABASES` subprocess raises
`CalledProcessError`, `get_databases` returns the empty list rather
than propagating the error. -/
theorem get_databases_error_returns_empty : get_databases none = [] := rfl

/-- C6: no result of `get_databases` is ever one of the denylisted
system schemas. -/
theorem get_databases_excludes_system (cmdResult : Option String)
    (db : String) (h : db ∈ get_databases cmdResult) :
    db ≠ "information_schema" ∧ db ≠ "performance_schema" ∧
      db ≠ "mysql" ∧ db ≠ "sys" := by
  cases cmdResult with
  | none => simp [get_databases] at h
  | some stdout =>
      simp only [get_databases] at h
      have hnot : db ∉ system_databases := by
        simpa using (List.mem_filter.mp h).2
      simp only [system_databases, List.mem_cons, List.not_mem_nil,
        or_false, not_or] at hnot
      exact ⟨hnot.1, hnot.2.1, hnot.2.2.1, hnot.2.2.2⟩

/-- Witness for C6 at a concrete subprocess output. -/
theorem get_databases_excludes_system_witness :
    "shopdb" ≠ "information_schema" ∧ "shopdb" ≠ "performance_schema" ∧
      "shopdb" ≠ "mysql" ∧ "shopdb" ≠ "sys" :=
  get_databases_excludes_system (some "Database\nshopdb\nmysql") "shopdb"
    (by decide)

/-- Character list of `String.mk`. -/
theorem data_mk (l : List Char) : (String.mk l).data = l := rfl

/-- ASCII digit characters are distinct for distinct digits. -/
theorem digitChar_inj : ∀ a < 10, ∀ b < 10,
    digitChar a = digitChar b → a = b := by
  decide

/-- A two-digit number below 100 is determined by its rendered digits. -/
theorem pad2_digits_inj (a b : Nat) (ha : a < 100) (hb : b < 100)
    (h1 : digitChar (a / 10 % 10) = digitChar (b / 10 % 10))
    (h2 : digitChar (a % 10) = digitChar (b % 10)) : a = b := by
  have g1 := digitChar_inj (a / 10 % 10) (by omega) (b / 10 % 10) (by omega) h1
  have g2 := digitChar_inj (a % 10) (by omega) (b % 10) (by omega) h2
  omega

/-- A four-digit number below 10000 is determined by its rendered digits. -/
theorem pad4_digits_inj (a b : Nat) (ha : a < 10000) (hb : b < 10000)
    (h1 : digitChar (a / 1000 % 10) = digitChar (b / 1000 % 10))
    (h2 : digitChar (a / 100 % 10) = digitChar (b / 100 % 10))
    (h3 : digitChar (a / 10 % 10) = digitChar (b / 10 % 10))
    (h4 : digitChar (a % 10) = digitChar (b % 10)) : a = b := by
  have g1 := digitChar_inj (a / 1000 % 10) (by omega) (b / 1000 % 10)
    (by omega) h1
  have g2 := digitChar_inj (a / 100 % 10) (by omega) (b / 100 % 10)
    (by omega) h2
  have g3 := digitChar_inj (a / 10 % 10) (by omega) (b / 10 % 10) (by omega) h3
  have g4 := digitChar_inj (a % 10) (by omega) (b % 10) (by omega) h4
  omega

/-- The `%Y%m%d_%H%M%S` rendering is injective on valid timestamps. -/
theorem strftime_inj (t1 t2 : Timestamp) (h1 : t1.Valid) (h2 : t2.Valid)
    (h : strftime_YmdHMS t1 = strftime_YmdHMS t2) : t1 = t2 := by
  obtain ⟨y1, mo1, d1, hh1, mi1, s1⟩ := t1
  obtain ⟨y2, mo2, d2, hh2, mi2, s2⟩ := t2
  obtain ⟨hy1, hmo1, hda1, hho1, hmi1, hs1⟩ := h1
  obtain ⟨hy2, hmo2, hda2, hho2, hmi2, hs2⟩ := h2
  have hd := congrArg String.data h
  have hus : ("_" : String).data = ['_'] := rfl
  simp only [strftime_YmdHMS, pad4, pad2, String.data_append, data_mk, hus,
    List.cons_append, List.nil_append] at hd
  simp only [List.cons.injEq, and_true, true_and] at hd
  obtain ⟨e1, e2, e3, e4, e5, e6, e7, e8, e9, e10, e11, e12, e13, e14⟩ := hd
  simp only [Timestamp.mk.injEq]
  exact ⟨pad4_digits_inj _ _ hy1 hy2 e1 e2 e3 e4,
    pad2_digits_inj _ _ hmo1 hmo2 e5 e6,
    pad2_digits_inj _ _ hda1 hda2 e7 e8,
    pad2_digits_inj _ _ hho1 hho2 e9 e10,
    pad2_digits_inj _ _ hmi1 hmi2 e11 e12,
    pad2_digits_inj _ _ hs1 hs2 e13 e14⟩

/-- C7: the backup path is `<dir>/<name>_<YYYYMMDD_HHMMSS>.sql` with a
15-character timestamp part, and two calls for the same database at
different wall-clock readings yield distinct filenames. -/
theorem create_backup_filename_format (backup_dir database : String)
    (t1 t2 : Timestamp) (h1 : t1.Valid) (h2 : t2.Valid) (hne : t1 ≠ t2) :
    create_backup_filename backup_dir database t1 =
      backup_dir ++ "/" ++
        (database ++ "_" ++ strftime_YmdHMS t1 ++ ".sql") ∧
    (strftime_YmdHMS t1).length = 15 ∧
    create_backup_filename backup_dir database t1 ≠
      create_backup_filename backup_dir database t2 := by
  refine ⟨rfl, rfl, ?_⟩
  intro heq
  apply hne
  apply strftime_inj t1 t2 h1 h2
  have hdata := congrArg String.data heq
  simp only [create_backup_filename, String.data_append,
    List.append_assoc] at hdata
  have h5 := List.append_cancel_left (List.append_cancel_left
    (List.append_cancel_left (List.append_cancel_left hdata)))
  exact String.ext (List.append_cancel_right h5)

/-- Witness for C7 at two concrete readings one second apart. -/
theorem create_backup_filename_format_witness :
    create_backup_filename "backups" "shopdb" ⟨2024, 1, 2, 3, 4, 5⟩ =
      "backups" ++ "/" ++
        ("shopdb" ++ "_" ++ strftime_YmdHMS ⟨2024, 1, 2, 3, 4, 5⟩ ++
          ".sql") ∧
    (strftime_YmdHMS ⟨2024, 1, 2, 3, 4, 5⟩).length = 15 ∧
    create_backup_filename "backups" "shopdb" ⟨2024, 1, 2, 3, 4, 5⟩ ≠
      create_backup_filename "backups" "shopdb" ⟨2024, 1, 2, 3, 4, 6⟩ :=
  create_backup_filename_format "backups" "shopdb"
    ⟨2024, 1, 2, 3, 4, 5⟩ ⟨2024, 1, 2, 3, 4, 6⟩
    ⟨by decide, by decide, by decide, by decide, by decide, by decide⟩
    ⟨by decide, by decide, by decide, by decide, by decide, by decide⟩
    (by decide)

/-- The backup loop keeps exactly the successful dumps, in order. -/
theorem backup_all_eq_filterMap (dumpOk : String → Bool)
    (backup_dir : String) (now : String → Timestamp) (dbs : List String) :
    backup_all_databases dumpOk backup_dir now dbs =
      dbs.filterMap
        (fun db => create_backup (dumpOk db) backup_dir db (now db)) := by
  induction dbs with
  | nil => rfl
  | cons db rest ih =>
      cases hdb : dumpOk db <;>
        simp [backup_all_databases, create_backup, hdb, ih,
          List.filterMap_cons]

/-- Result count of the backup loop plus the failed dumps is the
database count. -/
theorem backup_all_length (dumpOk : String → Bool) (backup_dir : String)
    (now : String → Timestamp) (dbs : List String) :
    (backup_all_databases dumpOk backup_dir now dbs).length +
      (dbs.countP fun db => !dumpOk db) = dbs.length := by
  induction dbs with
  | nil => rfl
  | cons db rest ih =>
      cases hdb : dumpOk db <;>
        · simp [backup_all_databases, create_backup, hdb, List.countP_cons]
          omega

/-- C8: when exactly one dump invocation fails, `backup_all_databases`
returns one path per successful dump, in the order attempted — N−1
paths for N databases — and (being a total function) never raises. -/
theorem backupAll_partial_failure (dumpOk : String → Bool)
    (backup_dir : String) (now : String → Timestamp) (dbs : List String)
    (h : (dbs.countP fun db => !dumpOk db) = 1) :
    (backup_all_databases dumpOk backup_dir now dbs).length =
      dbs.length - 1 ∧
    backup_all_databases dumpOk backup_dir now dbs =
      dbs.filterMap
        (fun db => create_backup (dumpOk db) backup_dir db (now db)) := by
  have hl := backup_all_length dumpOk backup_dir now dbs
  rw [h] at hl
  exact ⟨by omega, backup_all_eq_filterMap dumpOk backup_dir now dbs⟩

/-- Witness for C8: three databases, the middle dump fails. -/
theorem backupAll_partial_failure_witness :
    (backup_all_databases (fun db => !(db == "b")) "backups"
        (fun _ => ⟨2024, 1, 2, 3, 4, 5⟩) ["a", "b", "c"]).length =
      ["a", "b", "c"].length - 1 ∧
    backup_all_databases (fun db => !(db == "b")) "backups"
        (fun _ => ⟨2024, 1, 2, 3, 4, 5⟩) ["a", "b", "c"] =
      ["a", "b", "c"].filterMap
        (fun db => create_backup (!(db == "b")) "backups" db
          ⟨2024, 1, 2, 3, 4, 5⟩) :=
  backupAll_partial_failure (fun db => !(db == "b")) "backups"
    (fun _ => ⟨2024, 1, 2, 3, 4, 5⟩) ["a", "b", "c"] (by decide)

end BackupScript
